import Mathlib

/-!
Verification of `scripts/merge_avatar_animations.py`, a Blender batch script
that merges a GLB avatar with FBX animation clips via constraint-based
transfer and baking, then exports a combined GLB.

The script is pure orchestration of the Blender host API.  We embed the
host's scene objects that the script reads and writes (objects, layered
actions, pose-bone constraint stacks, NLA tracks) as Lean structures, and
embed each Python function as a pure Lean function.  Host operations whose
results the script merely consumes (the set of objects selected after
importing, the action produced by a bake) are inputs of the embedding; host
operations the script invokes for effect (the bake call, object removals,
the export) are recorded in the result so their arguments and order can be
reasoned about.
-/

namespace MergeAvatar

/-- Keyframe point of an fcurve.  Only its presence matters to the script
(it counts keyframe points), so we carry just the frame number. -/
structure KeyframePoint where
  frame : Int
deriving DecidableEq

/-- An fcurve with its keyframe points (`fcurve.keyframe_points`). -/
structure FCurve where
  keyframe_points : List KeyframePoint
deriving DecidableEq

/-- A channelbag of a layered-action strip (`strip.channelbags[]`). -/
structure Channelbag where
  fcurves : List FCurve
deriving DecidableEq

/-- A strip inside an action layer (Blender 5.0 layered actions:
`action.layers[].strips[].channelbags[].fcurves[]`). -/
structure LayerStrip where
  channelbags : List Channelbag
deriving DecidableEq

/-- A layer of a Blender 5.0 layered action. -/
structure Layer where
  strips : List LayerStrip
deriving DecidableEq

/-- A Blender action.  `frame_range` is the pair the script reads at lines
124-125; the script casts the two floats with `int()`, and the embedding
carries the integer values directly. -/
structure Action where
  name : String
  frame_range : Int × Int
  layers : List Layer
deriving DecidableEq

/-- A bone constraint as configured by the script: its type string
(`COPY_ROTATION` or `COPY_LOCATION`), target object name, subtarget bone
name, and the two space settings. -/
structure Constraint where
  ctype : String
  target : String
  subtarget : String
  target_space : String
  owner_space : String
deriving DecidableEq

/-- A pose bone of an armature, with its constraint stack. -/
structure PoseBone where
  name : String
  constraints : List Constraint
deriving DecidableEq

/-- An NLA strip (`track.strips[]`): name, start frame and the action it
plays. -/
structure NlaStrip where
  name : String
  frame_start : Int
  action : Option Action
deriving DecidableEq

/-- An NLA track (`animation_data.nla_tracks[]`). -/
structure NlaTrack where
  name : String
  strips : List NlaStrip
deriving DecidableEq

/-- Animation data of an object: the active action and the NLA tracks. -/
structure AnimationData where
  action : Option Action
  nla_tracks : List NlaTrack
deriving DecidableEq

/-- Blender object types the script distinguishes. -/
inductive ObjType where
  | ARMATURE
  | MESH
  | OTHER
deriving DecidableEq

/-- A scene object.  Blender object names are unique within `bpy.data`,
so object identity (`obj != target_armature`) is modelled by name
inequality.  `boneNames` are the names of `obj.data.bones`; `poseBones`
are `obj.pose.bones`; `children` are the names of the child objects. -/
structure Obj where
  name : String
  type : ObjType
  boneNames : List String
  poseBones : List PoseBone
  children : List String
  animation_data : Option AnimationData
deriving DecidableEq

/-! ### Counting helpers (`get_fcurve_count`, `get_keyframe_count`) -/

/-- Embedding of `get_fcurve_count`: the triple nested `for` loop
accumulating `count += len(cb.fcurves)`. -/
def get_fcurve_count (a : Action) : Nat :=
  a.layers.foldl
    (fun count layer =>
      layer.strips.foldl
        (fun count strip =>
          strip.channelbags.foldl
            (fun count cb => count + cb.fcurves.length) count)
        count)
    0

/-- Inner loop of `get_keyframe_count` over the channelbags of one strip:
the first channelbag with a nonempty `fcurves` list yields the keyframe
count of its first fcurve (`return len(cb.fcurves[0].keyframe_points)`). -/
def kfFromChannelbags : List Channelbag → Option Nat
  | [] => none
  | cb :: rest =>
    match cb.fcurves with
    | f :: _ => some f.keyframe_points.length
    | [] => kfFromChannelbags rest

/-- Middle loop of `get_keyframe_count` over the strips of one layer. -/
def kfFromStrips : List LayerStrip → Option Nat
  | [] => none
  | s :: rest =>
    match kfFromChannelbags s.channelbags with
    | some n => some n
    | none => kfFromStrips rest

/-- Outer loop of `get_keyframe_count` over the layers of an action. -/
def kfFromLayers : List Layer → Option Nat
  | [] => none
  | l :: rest =>
    match kfFromStrips l.strips with
    | some n => some n
    | none => kfFromLayers rest

/-- Embedding of `get_keyframe_count`: the early-returning triple loop,
falling through to `return 0`. -/
def get_keyframe_count (a : Action) : Nat :=
  (kfFromLayers a.layers).getD 0

/-! ### Name normalisation (`fbx_path.stem.replace(" ", "_").replace("-", "_")`) -/

/-- Python `str.replace` restricted to a single-character pattern and
replacement, which is how the script uses it; for one-character patterns
Python's substring replacement is exactly a character map. -/
def pyReplaceChar (s : String) (a b : Char) : String :=
  String.mk (s.data.map (fun c => if c = a then b else c))

/-- The animation name computed at line 97:
`fbx_path.stem.replace(" ", "_").replace("-", "_")`. -/
def animationNameOf (stem : String) : String :=
  pyReplaceChar (pyReplaceChar stem ' ' '_') '-' '_'

/-- Python `pathlib.Path.stem` on a file name: the name with its final
suffix removed, where a leading dot does not begin a suffix. -/
def stemOf (name : String) : String :=
  let cs := name.data
  let lastDot :=
    (List.range cs.length).foldl
      (fun acc i => if cs.get? i = some '.' ∧ 0 < i then some i else acc) none
  match lastDot with
  | some i => String.mk (cs.take i)
  | none => name

/-! ### Scene operations -/

/-- Embedding of the armature search in `import_glb_avatar` (lines 69-76):
the first selected object of type `ARMATURE`, else the `RuntimeError`
"No armature found in GLB avatar!". -/
def import_glb_avatar (selected : List Obj) : Except String Obj :=
  match selected.find? (fun o => decide (o.type = ObjType.ARMATURE)) with
  | some a => Except.ok a
  | none => Except.error "No armature found in GLB avatar!"

/-- Embedding of the source-armature search in
`import_and_transfer_animation` (lines 108-112): the first selected object
that is an armature and is not the target. -/
def findSourceArmature (selected : List Obj) (target : Obj) : Option Obj :=
  selected.find? (fun o => decide (o.type = ObjType.ARMATURE ∧ o.name ≠ target.name))

/-- Constraint setup for one target pose bone (lines 137-156): bones whose
name is not among the source bone names are skipped; matching bones get a
`COPY_ROTATION` constraint (WORLD to WORLD, targeting the same-named source
bone), and the bone named "Hips" additionally gets a `COPY_LOCATION`
constraint (WORLD to WORLD). -/
def constrainPoseBone (srcName : String) (srcBones : List String) (pb : PoseBone) : PoseBone :=
  if pb.name ∈ srcBones then
    let withRot := pb.constraints ++
      [{ ctype := "COPY_ROTATION", target := srcName, subtarget := pb.name,
         target_space := "WORLD", owner_space := "WORLD" }]
    let withAll :=
      if pb.name = "Hips" then
        withRot ++
          [{ ctype := "COPY_LOCATION", target := srcName, subtarget := pb.name,
             target_space := "WORLD", owner_space := "WORLD" }]
      else withRot
    { pb with constraints := withAll }
  else pb

/-- The target armature after the constraint-setup loop over
`target_armature.pose.bones`. -/
def addConstraints (src target : Obj) : Obj :=
  { target with poseBones := target.poseBones.map (constrainPoseBone src.name src.boneNames) }

/-- The `constrained_count` the loop accumulates: one per target pose bone
whose name occurs among the source bone names. -/
def constrainedCountOf (src target : Obj) : Nat :=
  (target.poseBones.filter (fun pb => decide (pb.name ∈ src.boneNames))).length

/-- Arguments of one `bpy.ops.nla.bake(...)` invocation. -/
structure BakeCall where
  frame_start : Int
  frame_end : Int
  only_selected : Bool
  visual_keying : Bool
  clear_constraints : Bool
  bake_types : List String
deriving DecidableEq

/-- Host behaviour of `bpy.ops.nla.bake` with `only_selected=False` and
`clear_constraints=True` as far as the script observes it: the bake result
becomes the object's active action and the pose-bone constraint stacks are
cleared. -/
def applyBake (o : Obj) (result : Option Action) : Obj :=
  let ad : AnimationData :=
    match o.animation_data with
    | some ad => { ad with action := result }
    | none => { action := result, nla_tracks := [] }
  { o with
    poseBones := o.poseBones.map (fun pb => { pb with constraints := [] }),
    animation_data := some ad }

/-- Result of one `import_and_transfer_animation` call: the Python return
value, the updated target armature, the names of the objects removed with
`bpy.data.objects.remove` in removal order, the bake invocations made, the
target armature as it stood when the bake was invoked, the
`constrained_count`, and the warning lines printed. -/
structure TransferResult where
  retval : Option Action
  target : Obj
  removed : List String
  bakes : List BakeCall
  constrainedTarget : Option Obj
  constrained_count : Nat
  warnings : List String
deriving DecidableEq

/-- Embedding of `import_and_transfer_animation` (lines 89-200).
`fbxStem` is `fbx_path.stem`; `selectedAfterImport` is the host's selected
object list after the FBX import; `bakeResult` is the action the host's
bake produces (the script reads it back as
`target_armature.animation_data.action`). -/
def import_and_transfer_animation (fbxStem : String) (selectedAfterImport : List Obj)
    (target : Obj) (bakeResult : Option Action) : TransferResult :=
  let animation_name := animationNameOf fbxStem
  match findSourceArmature selectedAfterImport target with
  | none =>
    { retval := none, target := target, removed := [], bakes := [],
      constrainedTarget := none, constrained_count := 0,
      warnings := ["No armature, skipping"] }
  | some src =>
    match src.animation_data.bind (fun ad => ad.action) with
    | none =>
      { retval := none, target := target, removed := [src.name], bakes := [],
        constrainedTarget := none, constrained_count := 0,
        warnings := ["No animation data, skipping"] }
    | some source_action =>
      let frame_start := source_action.frame_range.1
      let frame_end := source_action.frame_range.2
      let constrained := addConstraints src target
      let bake : BakeCall :=
        { frame_start := frame_start, frame_end := frame_end,
          only_selected := false, visual_keying := true,
          clear_constraints := true, bake_types := ["POSE"] }
      let afterBake := applyBake constrained bakeResult
      match bakeResult with
      | none =>
        { retval := none, target := afterBake, removed := [src.name],
          bakes := [bake], constrainedTarget := some constrained,
          constrained_count := constrainedCountOf src target,
          warnings := ["Bake produced no action"] }
      | some baked =>
        let bakedNamed := { baked with name := animation_name }
        let track : NlaTrack :=
          { name := animation_name,
            strips := [{ name := animation_name, frame_start := frame_start,
                         action := some bakedNamed }] }
        let finalAd : AnimationData :=
          match afterBake.animation_data with
          | some ad => { action := none, nla_tracks := ad.nla_tracks ++ [track] }
          | none => { action := none, nla_tracks := [track] }
        { retval := some bakedNamed,
          target := { afterBake with animation_data := some finalAd },
          removed := src.children ++ [src.name],
          bakes := [bake], constrainedTarget := some constrained,
          constrained_count := constrainedCountOf src target,
          warnings := [] }

/-- One NLA strip passes the check in `verify_animations` when it has an
action with more than 2 keyframes. -/
def goodStrip (s : NlaStrip) : Bool :=
  match s.action with
  | some a => decide (2 < get_keyframe_count a)
  | none => false

/-- Embedding of `verify_animations` (lines 203-230): `all_good` starts
true, is forced to false by a strip with no action or with at most 2
keyframes, and the whole check fails when the armature has no animation
data. -/
def verify_animations (arm : Obj) : Bool :=
  match arm.animation_data with
  | none => false
  | some ad =>
    ad.nla_tracks.foldl
      (fun all_good track =>
        track.strips.foldl
          (fun all_good s =>
            match s.action with
            | some a => if get_keyframe_count a ≤ 2 then false else all_good
            | none => false)
          all_good)
      true

/-! ### The `main` pipeline -/

/-- The configured clip selection (lines 25-30). -/
def SELECTED_ANIMATIONS : List String :=
  ["Talking.fbx", "Idle.fbx", "Standing Arguing.fbx", "Standing Greeting.fbx"]

/-- Input avatar path (line 21), relative to the project root. -/
def AVATAR_GLB_PATH (root : String) : String :=
  root ++ "/assets/sample_avatar.glb"

/-- Output path (line 23), relative to the project root. -/
def OUTPUT_PATH (root : String) : String :=
  root ++ "/assets/sample_avatar_animated.glb"

/-- Clip-file selection in `main` (lines 272-276): with a nonempty
`SELECTED_ANIMATIONS` the listed names that exist in the animations
directory, in listed order; with an empty list, the `*.fbx` files of the
directory. -/
def selectFbxFiles (selected : List String) (dirContents : List String) : List String :=
  if selected ≠ [] then
    selected.filter (fun n => n ∈ dirContents)
  else
    dirContents.filter (fun n => n.endsWith ".fbx")

/-- Host responses for one FBX clip: the selected objects after
importing it and the action the bake produces. -/
structure ClipResponse where
  selectedAfterImport : List Obj
  bakeResult : Option Action

/-- Host environment of one script invocation: the project root, the
selected objects after the GLB import, the animation directory listing, and
the per-clip host responses. -/
structure Env where
  root : String
  baseSelected : List Obj
  dirContents : List String
  clip : String → ClipResponse

/-- Pipeline events of one invocation, in execution order. -/
inductive Event where
  | clearScene
  | importBase (path : String)
  | importClip (path : String)
  | verify
  | exportAsset (path : String)
deriving DecidableEq

/-- Clip name of an `importClip` event. -/
def clipName? : Event → Option String
  | Event.importClip f => some f
  | _ => none

/-- The clip loop of `main` (lines 280-284): each file is handed to
`import_and_transfer_animation` exactly once, the target armature is
threaded through, and `imported_count` counts the calls that returned an
action.  Returns the `importClip` events, the final armature and the
count. -/
def processClips (env : Env) : List String → Obj → List Event × Obj × Nat
  | [], arm => ([], arm, 0)
  | f :: rest, arm =>
    let resp := env.clip f
    let r := import_and_transfer_animation (stemOf f) resp.selectedAfterImport arm resp.bakeResult
    let next := processClips env rest r.target
    (Event.importClip f :: next.1, next.2.1,
      (if r.retval.isSome then 1 else 0) + next.2.2)

/-- Result of one `main` invocation: the event trace, the error of an
uncaught `RuntimeError` if one was raised, `imported_count`, the result of
`verify_animations`, and the final target armature. -/
structure MainResult where
  trace : List Event
  error : Option String
  imported_count : Nat
  verified : Option Bool
  finalArmature : Option Obj

/-- Embedding of `main` (lines 261-296): clear scene, import the GLB
avatar (raising on a missing armature), select and process the clip files,
verify, and export.  The verification result only drives a warning print;
the export is unconditional. -/
def main (env : Env) : MainResult :=
  let t0 := [Event.clearScene, Event.importBase (AVATAR_GLB_PATH env.root)]
  match import_glb_avatar env.baseSelected with
  | Except.error e =>
    { trace := t0, error := some e, imported_count := 0,
      verified := none, finalArmature := none }
  | Except.ok armature =>
    let fbx_files := selectFbxFiles SELECTED_ANIMATIONS env.dirContents
    let stepped := processClips env fbx_files armature
    let ok := verify_animations stepped.2.1
    { trace := t0 ++ stepped.1 ++ [Event.verify, Event.exportAsset (OUTPUT_PATH env.root)],
      error := none, imported_count := stepped.2.2,
      verified := some ok, finalArmature := some stepped.2.1 }

/-! ### Spec-side readings of the counting helpers (claim C9) -/

/-- All channelbags of an action, flattened across layers and strips in
iteration order. -/
def allChannelbags (a : Action) : List Channelbag :=
  ((a.layers.map Layer.strips).flatten.map LayerStrip.channelbags).flatten

/-- Spec-side reading of `get_fcurve_count`: the sum of the fcurve counts
of every channelbag of every strip of every layer. -/
def specFcurveCount (a : Action) : Nat :=
  ((allChannelbags a).map (fun cb => cb.fcurves.length)).sum

/-- Spec-side reading of `get_keyframe_count`: the number of keyframe
points of the first fcurve of the first non-empty channelbag, and 0 when
there is none. -/
def specKeyframeCount (a : Action) : Nat :=
  match (allChannelbags a).find? (fun cb => !cb.fcurves.isEmpty) with
  | some cb =>
    match cb.fcurves with
    | f :: _ => f.keyframe_points.length
    | [] => 0
  | none => 0

/-- Spec-side reading of the name normalisation of claim C8: every space
and every hyphen of the stem replaced by an underscore, other characters
kept. -/
def specNormalize (s : String) : String :=
  String.mk (s.data.map (fun c => if c = ' ' ∨ c = '-' then '_' else c))

/-! ### Concrete fixtures used by the witnesses -/

/-- A three-keyframe action used as a source action and bake result. -/
def act1 : Action :=
  { name := "SourceAction", frame_range := (1, 40),
    layers := [{ strips := [{ channelbags :=
      [{ fcurves := [{ keyframe_points := [⟨1⟩, ⟨20⟩, ⟨40⟩] }] }] }] }] }

/-- An action with no fcurves at all. -/
def emptyAct : Action :=
  { name := "Empty", frame_range := (0, 0), layers := [{ strips := [{ channelbags := [] }] }] }

/-- A target armature with three pose bones, one of which has no
counterpart on the sources. -/
def tgtObj : Obj :=
  { name := "Armature", type := ObjType.ARMATURE,
    boneNames := ["Hips", "Spine", "Extra"],
    poseBones := [{ name := "Hips", constraints := [] },
                  { name := "Spine", constraints := [] },
                  { name := "Extra", constraints := [] }],
    children := ["Body"],
    animation_data := some { action := none, nla_tracks := [] } }

/-- A source armature carrying an action, with one child mesh. -/
def srcObj : Obj :=
  { name := "Armature.001", type := ObjType.ARMATURE,
    boneNames := ["Hips", "Spine"],
    poseBones := [],
    children := ["SourceMesh"],
    animation_data := some { action := some act1, nla_tracks := [] } }

/-- A source armature with no animation data, with one child mesh. -/
def srcObjNoAnim : Obj :=
  { name := "Armature.002", type := ObjType.ARMATURE,
    boneNames := ["Hips"],
    poseBones := [],
    children := ["OrphanMesh"],
    animation_data := none }

/-- A mesh object (not an armature). -/
def meshObj : Obj :=
  { name := "Body", type := ObjType.MESH, boneNames := [], poseBones := [],
    children := [], animation_data := none }

/-- Environment whose GLB import yields an armature and whose animations
directory is empty. -/
def env0 : Env :=
  { root := "P", baseSelected := [tgtObj], dirContents := [],
    clip := fun _ => { selectedAfterImport := [], bakeResult := none } }

/-- Environment whose GLB import yields an armature and whose directory
holds one of the selected clips, with a successful transfer. -/
def env1 : Env :=
  { root := "P", baseSelected := [tgtObj], dirContents := ["Talking.fbx"],
    clip := fun _ => { selectedAfterImport := [srcObj], bakeResult := some act1 } }

/-- Environment whose GLB import yields no armature. -/
def env2 : Env :=
  { root := "P", baseSelected := [meshObj], dirContents := ["Talking.fbx"],
    clip := fun _ => { selectedAfterImport := [srcObj], bakeResult := some act1 } }

/-! ### Helper lemmas -/

/-- Folding `count + len` over channelbags adds the summed fcurve
lengths. -/
theorem foldl_add_channelbags (cbs : List Channelbag) (n : Nat) :
    cbs.foldl (fun count cb => count + cb.fcurves.length) n
      = n + ((cbs.map (fun cb => cb.fcurves.length)).sum) := by
  induction cbs generalizing n with
  | nil => simp
  | cons cb rest ih => simp [List.foldl, ih, Nat.add_assoc]

/-- Folding the channelbag loop over the strips of a layer adds the summed
fcurve lengths of the flattened channelbags. -/
theorem foldl_add_strips (ss : List LayerStrip) (n : Nat) :
    ss.foldl (fun count strip =>
        strip.channelbags.foldl (fun c cb => c + cb.fcurves.length) count) n
      = n + (((ss.map LayerStrip.channelbags).flatten.map
          (fun cb => cb.fcurves.length)).sum) := by
  induction ss generalizing n with
  | nil => simp
  | cons s rest ih =>
    rw [List.foldl_cons, foldl_add_channelbags, ih]
    simp [List.sum_append, Nat.add_assoc]

/-- Folding the strip loop over the layers adds the summed fcurve lengths
of all flattened channelbags. -/
theorem foldl_add_layers (ls : List Layer) (n : Nat) :
    ls.foldl (fun count layer =>
        layer.strips.foldl (fun c strip =>
          strip.channelbags.foldl (fun c cb => c + cb.fcurves.length) c) count) n
      = n + ((((ls.map Layer.strips).flatten.map LayerStrip.channelbags).flatten.map
          (fun cb => cb.fcurves.length)).sum) := by
  induction ls generalizing n with
  | nil => simp
  | cons l rest ih =>
    rw [List.foldl_cons, foldl_add_strips, ih]
    simp [List.map_append, List.flatten_append, List.sum_append, Nat.add_assoc]

/-- The channelbag search distributes over list append. -/
theorem kfFromChannelbags_append (xs ys : List Channelbag) :
    kfFromChannelbags (xs ++ ys)
      = match kfFromChannelbags xs with
        | some n => some n
        | none => kfFromChannelbags ys := by
  induction xs with
  | nil => simp [kfFromChannelbags]
  | cons cb rest ih =>
    cases h : cb.fcurves with
    | nil => simpa [kfFromChannelbags, h] using ih
    | cons f fs => simp [kfFromChannelbags, h]

/-- The strip-level search equals the channelbag search over the
flattened channelbags. -/
theorem kfFromStrips_eq (ss : List LayerStrip) :
    kfFromStrips ss = kfFromChannelbags ((ss.map LayerStrip.channelbags).flatten) := by
  induction ss with
  | nil => simp [kfFromStrips, kfFromChannelbags]
  | cons s rest ih =>
    simp only [kfFromStrips, List.map, List.flatten, kfFromChannelbags_append, ih]

/-- The layer-level search equals the channelbag search over all
flattened channelbags. -/
theorem kfFromLayers_eq (ls : List Layer) :
    kfFromLayers ls
      = kfFromChannelbags (((ls.map Layer.strips).flatten.map
          LayerStrip.channelbags).flatten) := by
  induction ls with
  | nil => simp [kfFromLayers, kfFromChannelbags]
  | cons l rest ih =>
    simp only [kfFromLayers, kfFromStrips_eq, List.map, List.flatten, List.map_append,
      List.flatten_append, kfFromChannelbags_append, ih]

/-- The channelbag search as a `find?` over non-empty channelbags. -/
theorem kfFromChannelbags_eq_find (cbs : List Channelbag) :
    kfFromChannelbags cbs
      = (cbs.find? (fun cb => !cb.fcurves.isEmpty)).map
          (fun cb =>
            match cb.fcurves with
            | f :: _ => f.keyframe_points.length
            | [] => 0) := by
  induction cbs with
  | nil => simp [kfFromChannelbags]
  | cons cb rest ih =>
    cases h : cb.fcurves with
    | nil => simp [kfFromChannelbags, h, List.find?, ih]
    | cons f fs => simp [kfFromChannelbags, h, List.find?]

/-- The clip loop emits one `importClip` event per file, in order,
regardless of the per-clip outcomes. -/
theorem processClips_events (env : Env) (files : List String) (arm : Obj) :
    (processClips env files arm).1 = files.map Event.importClip := by
  induction files generalizing arm with
  | nil => rfl
  | cons f rest ih => simp [processClips, ih]

/-- The transferred count never exceeds the number of files handed to the
clip loop. -/
theorem processClips_count_le (env : Env) (files : List String) (arm : Obj) :
    (processClips env files arm).2.2 ≤ files.length := by
  induction files generalizing arm with
  | nil => simp [processClips]
  | cons f rest ih =>
    simp only [processClips, List.length_cons]
    have h := ih (import_and_transfer_animation (stemOf f)
      (env.clip f).selectedAfterImport arm (env.clip f).bakeResult).target
    split <;> omega

/-- Mapping `importClip` and then extracting clip names is the
identity. -/
theorem filterMap_clipName_map (files : List String) :
    (files.map Event.importClip).filterMap clipName? = files := by
  induction files with
  | nil => rfl
  | cons f rest ih => simp [clipName?, ih]

/-- Extracting clip names after building clip events, in composed form. -/
theorem filterMap_clipName_comp (files : List String) :
    files.filterMap (clipName? ∘ Event.importClip) = files := by
  induction files with
  | nil => rfl
  | cons f rest ih => simp [clipName?, Function.comp, ih]

/-- Counting a fixed clip event in a mapped clip list counts the file. -/
theorem count_map_importClip (files : List String) (f : String) :
    (files.map Event.importClip).count (Event.importClip f) = files.count f := by
  induction files with
  | nil => rfl
  | cons g rest ih => simp [List.count_cons, ih]

/-- A clip list contains no event other than `importClip` events. -/
theorem count_map_importClip_ne (files : List String) (e : Event)
    (he : ∀ f, Event.importClip f ≠ e) :
    (files.map Event.importClip).count e = 0 := by
  rw [List.count_eq_zero]
  intro hmem
  obtain ⟨f, _, hf⟩ := List.mem_map.mp hmem
  exact he f hf

/-- The character translation of `animationNameOf` agrees with replacing
spaces and hyphens by underscores in one pass. -/
theorem animationNameOf_eq_specNormalize (s : String) :
    animationNameOf s = specNormalize s := by
  have hf : ((fun c : Char => if c = '-' then '_' else c)
        ∘ (fun c : Char => if c = ' ' then '_' else c))
      = fun c : Char => if c = ' ' ∨ c = '-' then '_' else c := by
    funext c
    by_cases h1 : c = ' '
    · subst h1; decide
    · by_cases h2 : c = '-'
      · subst h2; decide
      · simp [Function.comp, h1, h2]
  show String.mk (((s.data.map fun c => if c = ' ' then '_' else c).map
      fun c => if c = '-' then '_' else c)) = _
  rw [List.map_map, hf]
  rfl

/-- A strip passes the keyframe check exactly when it carries an action
with more than 2 keyframes. -/
theorem goodStrip_iff (s : NlaStrip) :
    goodStrip s = true ↔ ∃ a, s.action = some a ∧ 2 < get_keyframe_count a := by
  cases h : s.action <;> simp [goodStrip, h]

/-- The strip loop of `verify_animations` computes the conjunction of the
incoming flag with the per-strip checks. -/
theorem foldl_strip_check (l : List NlaStrip) : ∀ init : Bool,
    l.foldl (fun all_good s =>
        match s.action with
        | some a => if get_keyframe_count a ≤ 2 then false else all_good
        | none => false) init
      = (init && l.all goodStrip) := by
  induction l with
  | nil => intro init; simp
  | cons s rest ih =>
    intro init
    simp only [List.foldl_cons, List.all_cons]
    rw [ih]
    have hstep : (match s.action with
        | some a => if get_keyframe_count a ≤ 2 then false else init
        | none => false) = (init && goodStrip s) := by
      cases h : s.action with
      | none => simp [goodStrip, h]
      | some a =>
        by_cases hk : get_keyframe_count a ≤ 2
        · have h2 : ¬ 2 < get_keyframe_count a := by omega
          simp [goodStrip, h, hk, h2]
        · have h2 : 2 < get_keyframe_count a := by omega
          simp [goodStrip, h, hk, h2]
    rw [hstep, Bool.and_assoc]

/-- The track loop of `verify_animations` computes the conjunction of the
incoming flag with all per-strip checks. -/
theorem foldl_track_check (ts : List NlaTrack) : ∀ init : Bool,
    ts.foldl (fun all_good track =>
        track.strips.foldl (fun all_good s =>
          match s.action with
          | some a => if get_keyframe_count a ≤ 2 then false else all_good
          | none => false) all_good) init
      = (init && ts.all fun t => t.strips.all goodStrip) := by
  induction ts with
  | nil => intro init; simp
  | cons t rest ih =>
    intro init
    simp only [List.foldl_cons, List.all_cons]
    rw [foldl_strip_check, ih, Bool.and_assoc]

/-- Characterisation of `verify_animations` on an armature with animation
data: it succeeds exactly when every strip of every NLA track has an
action with more than 2 keyframes. -/
theorem verify_animations_iff (arm : Obj) (ad : AnimationData)
    (had : arm.animation_data = some ad) :
    (verify_animations arm = true ↔
      ∀ t ∈ ad.nla_tracks, ∀ s ∈ t.strips,
        ∃ a, s.action = some a ∧ 2 < get_keyframe_count a) := by
  simp only [verify_animations, had]
  rw [foldl_track_check]
  simp [List.all_eq_true, goodStrip_iff]

/-! ### Claim theorems -/

/-- Claim C9: the keyframe count used by the sanity check is the number of
keyframe points of the first fcurve of the first non-empty channelbag of
the action's layers, 0 when the action has no fcurves, while the fcurve
count sums the fcurves over every channelbag of every strip of every
layer. -/
theorem C9_counting_helpers (a : Action) :
    get_keyframe_count a = specKeyframeCount a ∧
    get_fcurve_count a = specFcurveCount a ∧
    (get_fcurve_count a = 0 → get_keyframe_count a = 0) := by
  have hfc : get_fcurve_count a = specFcurveCount a := by
    unfold get_fcurve_count specFcurveCount allChannelbags
    rw [foldl_add_layers]
    simp
  have hkf : get_keyframe_count a = specKeyframeCount a := by
    unfold get_keyframe_count specKeyframeCount
    rw [show kfFromLayers a.layers = kfFromChannelbags (allChannelbags a) from
      kfFromLayers_eq a.layers]
    rw [kfFromChannelbags_eq_find]
    cases h : (allChannelbags a).find? (fun cb => !cb.fcurves.isEmpty) <;> simp [h]
  refine ⟨hkf, hfc, fun h0 => ?_⟩
  rw [hkf]
  unfold specKeyframeCount
  have hnone : (allChannelbags a).find? (fun cb => !cb.fcurves.isEmpty) = none := by
    rw [List.find?_eq_none]
    intro cb hcb
    have hz : cb.fcurves.length = 0 := by
      have hsum : ((allChannelbags a).map (fun cb => cb.fcurves.length)).sum = 0 := by
        rw [hfc] at h0
        exact h0
      exact List.sum_eq_zero_iff.mp hsum _ (List.mem_map_of_mem _ hcb)
    simp [List.isEmpty_iff, List.length_eq_zero.mp hz]
  rw [hnone]

/-- Witness for C9 at an action with no fcurves. -/
theorem C9_counting_helpers_witness :
    get_fcurve_count emptyAct = 0 ∧ get_keyframe_count emptyAct = 0 :=
  ⟨by decide, (C9_counting_helpers emptyAct).2.2 (by decide)⟩

/-- Claim C8: a successfully transferred clip yields a baked action, NLA
track and NLA strip all named with the clip file's stem in which every
space and every hyphen is replaced by an underscore. -/
theorem C8_transfer_naming (stem : String) (sel : List Obj) (tgt : Obj)
    (src : Obj) (sa baked : Action)
    (hsrc : findSourceArmature sel tgt = some src)
    (hact : src.animation_data.bind (fun ad => ad.action) = some sa) :
    (import_and_transfer_animation stem sel tgt (some baked)).retval
        = some { baked with name := animationNameOf stem } ∧
    (∃ ad, (import_and_transfer_animation stem sel tgt (some baked)).target.animation_data
          = some ad ∧
        ad.action = none ∧
        ad.nla_tracks.getLast? = some
          { name := animationNameOf stem,
            strips := [{ name := animationNameOf stem, frame_start := sa.frame_range.1,
                         action := some { baked with name := animationNameOf stem } }] }) ∧
    animationNameOf stem = specNormalize stem := by
  refine ⟨?_, ?_, animationNameOf_eq_specNormalize stem⟩
  · simp only [import_and_transfer_animation, hsrc, hact]
  · simp only [import_and_transfer_animation, hsrc, hact]
    exact ⟨_, rfl, rfl, List.getLast?_concat _⟩

/-- Witness for C8 at a concrete transfer of "Standing Arguing.fbx". -/
theorem C8_transfer_naming_witness :
    findSourceArmature [srcObj] tgtObj = some srcObj ∧
    (import_and_transfer_animation "Standing Arguing" [srcObj] tgtObj (some act1)).retval
      = some { act1 with name := "Standing_Arguing" } := by
  refine ⟨by decide, ?_⟩
  have h := (C8_transfer_naming "Standing Arguing" [srcObj] tgtObj srcObj act1 act1
    (by decide) rfl).1
  simpa using h

/-- Claim C1: on a clip whose imported source armature carries an action,
the script adds a WORLD-to-WORLD Copy Rotation constraint to every target
pose bone whose name occurs among the source bone names (and leaves the
other pose bones untouched), adds a WORLD-to-WORLD Copy Location
constraint only to the bone named "Hips", and then invokes exactly one
bake over the source action's frame range with `visual_keying` and
`clear_constraints` set and `bake_types={POSE}`. -/
theorem C1_constraints_and_bake (stem : String) (sel : List Obj) (tgt : Obj)
    (bk : Option Action) (src : Obj) (sa : Action)
    (hsrc : findSourceArmature sel tgt = some src)
    (hact : src.animation_data.bind (fun ad => ad.action) = some sa) :
    (import_and_transfer_animation stem sel tgt bk).constrainedTarget
        = some (addConstraints src tgt) ∧
    (addConstraints src tgt).poseBones
        = tgt.poseBones.map (constrainPoseBone src.name src.boneNames) ∧
    (∀ pb : PoseBone, pb.name ∈ src.boneNames →
      (constrainPoseBone src.name src.boneNames pb).constraints
        = pb.constraints ++
            [{ ctype := "COPY_ROTATION", target := src.name, subtarget := pb.name,
               target_space := "WORLD", owner_space := "WORLD" }] ++
            (if pb.name = "Hips" then
              [{ ctype := "COPY_LOCATION", target := src.name, subtarget := pb.name,
                 target_space := "WORLD", owner_space := "WORLD" }]
             else [])) ∧
    (∀ pb : PoseBone, pb.name ∉ src.boneNames →
      constrainPoseBone src.name src.boneNames pb = pb) ∧
    (import_and_transfer_animation stem sel tgt bk).bakes
        = [{ frame_start := sa.frame_range.1, frame_end := sa.frame_range.2,
             only_selected := false, visual_keying := true,
             clear_constraints := true, bake_types := ["POSE"] }] := by
  refine ⟨?_, rfl, ?_, ?_, ?_⟩
  · cases bk <;> simp only [import_and_transfer_animation, hsrc, hact]
  · intro pb hpb
    unfold constrainPoseBone
    rw [if_pos hpb]
    by_cases hh : pb.name = "Hips" <;> simp [hh]
  · intro pb hpb
    unfold constrainPoseBone
    rw [if_neg hpb]
  · cases bk <;> simp only [import_and_transfer_animation, hsrc, hact]

/-- Witness for C1 at a concrete transfer: matched bones "Hips" and
"Spine", unmatched bone "Extra", and the recorded bake over frames
1 to 40. -/
theorem C1_constraints_and_bake_witness :
    findSourceArmature [srcObj] tgtObj = some srcObj ∧
    (import_and_transfer_animation "Idle" [srcObj] tgtObj none).bakes
      = [{ frame_start := 1, frame_end := 40, only_selected := false,
           visual_keying := true, clear_constraints := true,
           bake_types := ["POSE"] }] ∧
    (import_and_transfer_animation "Idle" [srcObj] tgtObj none).constrainedTarget
      = some (addConstraints srcObj tgtObj) := by
  have h := C1_constraints_and_bake "Idle" [srcObj] tgtObj none srcObj act1
    (by decide) rfl
  exact ⟨by decide, h.2.2.2.2, h.1⟩

/-- Claim C5: a clip whose source armature has no animation data (or no
action) produces a warning, is skipped with return value `None`, removes
only its source armature, leaves the target armature untouched (no bake),
and the clip loop goes on to the remaining clips. -/
theorem C5_skip_missing_animation (stem : String) (sel : List Obj) (tgt : Obj)
    (bk : Option Action) (src : Obj)
    (hsrc : findSourceArmature sel tgt = some src)
    (hact : src.animation_data.bind (fun ad => ad.action) = none) :
    (import_and_transfer_animation stem sel tgt bk).retval = none ∧
    (import_and_transfer_animation stem sel tgt bk).target = tgt ∧
    (import_and_transfer_animation stem sel tgt bk).bakes = [] ∧
    (import_and_transfer_animation stem sel tgt bk).removed = [src.name] ∧
    (import_and_transfer_animation stem sel tgt bk).warnings
        = ["No animation data, skipping"] ∧
    (∀ (env : Env) (files : List String) (arm : Obj),
      (processClips env files arm).1 = files.map Event.importClip) := by
  refine ⟨?_, ?_, ?_, ?_, ?_, processClips_events⟩ <;>
    simp only [import_and_transfer_animation, hsrc, hact]

/-- Witness for C5 at a source armature without animation data. -/
theorem C5_skip_missing_animation_witness :
    findSourceArmature [srcObjNoAnim] tgtObj = some srcObjNoAnim ∧
    (import_and_transfer_animation "Idle" [srcObjNoAnim] tgtObj none).retval = none ∧
    (import_and_transfer_animation "Idle" [srcObjNoAnim] tgtObj none).removed
      = ["Armature.002"] := by
  have h := C5_skip_missing_animation "Idle" [srcObjNoAnim] tgtObj none srcObjNoAnim
    (by decide) rfl
  exact ⟨by decide, h.1, h.2.2.2.1⟩

/-- Claim C10: with no source armature among the imported objects the
transfer returns `None` removing nothing; with a source armature lacking
animation data only the armature object itself is removed, never its
children; on the success path the children and then the armature are
removed. -/
theorem C10_cleanup_effects (stem : String) (sel : List Obj) (tgt : Obj)
    (bk : Option Action) :
    (findSourceArmature sel tgt = none →
      (import_and_transfer_animation stem sel tgt bk).retval = none ∧
      (import_and_transfer_animation stem sel tgt bk).removed = []) ∧
    (∀ src, findSourceArmature sel tgt = some src →
      src.animation_data.bind (fun ad => ad.action) = none →
      (import_and_transfer_animation stem sel tgt bk).retval = none ∧
      (import_and_transfer_animation stem sel tgt bk).removed = [src.name]) ∧
    (∀ src sa baked, findSourceArmature sel tgt = some src →
      src.animation_data.bind (fun ad => ad.action) = some sa →
      bk = some baked →
      (import_and_transfer_animation stem sel tgt bk).removed
        = src.children ++ [src.name]) := by
  refine ⟨fun h => ⟨?_, ?_⟩, fun src h1 h2 => ⟨?_, ?_⟩, fun src sa baked h1 h2 h3 => ?_⟩
  · simp only [import_and_transfer_animation, h]
  · simp only [import_and_transfer_animation, h]
  · simp only [import_and_transfer_animation, h1, h2]
  · simp only [import_and_transfer_animation, h1, h2]
  · subst h3
    simp only [import_and_transfer_animation, h1, h2]

/-- Witness for C10 at three concrete imports: no armature, an armature
without animation (its child "OrphanMesh" stays), and a successful
transfer (child "SourceMesh" then armature removed). -/
theorem C10_cleanup_effects_witness :
    (import_and_transfer_animation "Idle" [meshObj] tgtObj none).removed = [] ∧
    (import_and_transfer_animation "Idle" [srcObjNoAnim] tgtObj none).removed
      = ["Armature.002"] ∧
    (import_and_transfer_animation "Idle" [srcObj] tgtObj (some act1)).removed
      = ["SourceMesh", "Armature.001"] := by
  refine ⟨((C10_cleanup_effects "Idle" [meshObj] tgtObj none).1 (by decide)).2,
    ((C10_cleanup_effects "Idle" [srcObjNoAnim] tgtObj none).2.1 srcObjNoAnim
      (by decide) rfl).2, ?_⟩
  have h := (C10_cleanup_effects "Idle" [srcObj] tgtObj (some act1)).2.2 srcObj act1 act1
    (by decide) rfl rfl
  simpa using h

/-- The trace of a successful `main` run, assembled. -/
theorem main_trace_shape (env : Env) (arm : Obj)
    (h : import_glb_avatar env.baseSelected = Except.ok arm) :
    (main env).trace
      = [Event.clearScene, Event.importBase (AVATAR_GLB_PATH env.root)]
        ++ (selectFbxFiles SELECTED_ANIMATIONS env.dirContents).map Event.importClip
        ++ [Event.verify, Event.exportAsset (OUTPUT_PATH env.root)] := by
  simp only [main, h, processClips_events]

/-- Claim C2: when the base import yields an armature, one invocation runs
the pipeline stages exactly once and in order: clear scene, import base
asset, import each clip in turn, verify, export. -/
theorem C2_linear_pipeline (env : Env) (arm : Obj)
    (h : import_glb_avatar env.baseSelected = Except.ok arm) :
    (main env).trace
      = [Event.clearScene, Event.importBase (AVATAR_GLB_PATH env.root)]
        ++ (selectFbxFiles SELECTED_ANIMATIONS env.dirContents).map Event.importClip
        ++ [Event.verify, Event.exportAsset (OUTPUT_PATH env.root)] ∧
    (main env).error = none ∧
    (main env).trace.count Event.clearScene = 1 ∧
    (main env).trace.count (Event.importBase (AVATAR_GLB_PATH env.root)) = 1 ∧
    (main env).trace.count Event.verify = 1 ∧
    (main env).trace.count (Event.exportAsset (OUTPUT_PATH env.root)) = 1 := by
  have htr := main_trace_shape env arm h
  refine ⟨htr, by simp only [main, h], ?_, ?_, ?_, ?_⟩ <;>
    rw [htr] <;>
    simp [List.count_append, List.count_cons, count_map_importClip_ne]

/-- Witness for C2 at a concrete environment with one clip. -/
theorem C2_linear_pipeline_witness :
    import_glb_avatar env1.baseSelected = Except.ok tgtObj ∧
    (main env1).trace
      = [Event.clearScene, Event.importBase "P/assets/sample_avatar.glb",
         Event.importClip "Talking.fbx", Event.verify,
         Event.exportAsset "P/assets/sample_avatar_animated.glb"] ∧
    (main env1).trace.count Event.verify = 1 :=
  ⟨rfl, by decide, (C2_linear_pipeline env1 tgtObj rfl).2.2.2.2.1⟩

/-- Counterexample to the "post-export" placement in claim C3: in a run of
the pipeline the verification event occurs strictly before the export
event (the script verifies and only then exports). -/
theorem C3_pre_export_counterexample :
    (main env0).trace
      = [Event.clearScene, Event.importBase "P/assets/sample_avatar.glb",
         Event.verify, Event.exportAsset "P/assets/sample_avatar_animated.glb"] ∧
    (main env0).trace.indexOf Event.verify = 2 ∧
    (main env0).trace.indexOf
        (Event.exportAsset "P/assets/sample_avatar_animated.glb") = 3 ∧
    (main env0).trace.count Event.verify = 1 := by decide

/-- Claim C3 (amended): a pre-export verification pass inspects every NLA
strip of the target armature, failing exactly when some strip lacks an
action or has at most 2 keyframes, and the export is performed right
after it in every case — the verification result never blocks export. -/
theorem C3_verify_never_blocks (env : Env) (arm : Obj)
    (h : import_glb_avatar env.baseSelected = Except.ok arm) :
    (∃ pre, (main env).trace
        = pre ++ [Event.verify, Event.exportAsset (OUTPUT_PATH env.root)] ∧
      Event.verify ∉ pre) ∧
    (main env).error = none ∧
    (∀ (b : Obj) (ad : AnimationData), b.animation_data = some ad →
      (verify_animations b = true ↔
        ∀ t ∈ ad.nla_tracks, ∀ s ∈ t.strips,
          ∃ a, s.action = some a ∧ 2 < get_keyframe_count a)) := by
  refine ⟨?_, by simp only [main, h], fun b ad had => verify_animations_iff b ad had⟩
  refine ⟨[Event.clearScene, Event.importBase (AVATAR_GLB_PATH env.root)]
      ++ (selectFbxFiles SELECTED_ANIMATIONS env.dirContents).map Event.importClip,
    ?_, ?_⟩
  · rw [main_trace_shape env arm h]
  · simp

/-- Witness for the amended C3 at a concrete environment. -/
theorem C3_verify_never_blocks_witness :
    import_glb_avatar env1.baseSelected = Except.ok tgtObj ∧
    (∃ pre, (main env1).trace
        = pre ++ [Event.verify, Event.exportAsset (OUTPUT_PATH "P")] ∧
      Event.verify ∉ pre) :=
  ⟨rfl, (C3_verify_never_blocks env1 tgtObj rfl).1⟩

/-- Claim C4: when no armature is among the objects selected by the base
GLB import, `main` raises the `RuntimeError` "No armature found in GLB
avatar!" and the pipeline stops: no clip import, no verification and no
export happens. -/
theorem C4_missing_armature_fatal (env : Env)
    (h : ∀ o ∈ env.baseSelected, o.type ≠ ObjType.ARMATURE) :
    (main env).error = some "No armature found in GLB avatar!" ∧
    (main env).trace = [Event.clearScene, Event.importBase (AVATAR_GLB_PATH env.root)] ∧
    (∀ p, Event.importClip p ∉ (main env).trace) ∧
    Event.verify ∉ (main env).trace ∧
    (∀ p, Event.exportAsset p ∉ (main env).trace) := by
  have hf : env.baseSelected.find? (fun o => decide (o.type = ObjType.ARMATURE)) = none := by
    rw [List.find?_eq_none]
    intro o ho
    simpa using h o ho
  have hglb : import_glb_avatar env.baseSelected
      = Except.error "No armature found in GLB avatar!" := by
    unfold import_glb_avatar
    rw [hf]
  refine ⟨by simp only [main, hglb], by simp only [main, hglb], ?_, ?_, ?_⟩ <;>
    simp [main, hglb]

/-- Witness for C4: a GLB import that selected only a mesh. -/
theorem C4_missing_armature_fatal_witness :
    (∀ o ∈ env2.baseSelected, o.type ≠ ObjType.ARMATURE) ∧
    (main env2).error = some "No armature found in GLB avatar!" :=
  ⟨by decide, (C4_missing_armature_fatal env2 (by decide)).1⟩

/-- Claim C6: with the nonempty configured selection the processed clips
are exactly the `SELECTED_ANIMATIONS` entries present in the animations
directory, in listed order; with an empty selection every `*.fbx` file of
the directory is processed; and the export goes to the single fixed
output path. -/
theorem C6_clip_selection (env : Env) (arm : Obj)
    (h : import_glb_avatar env.baseSelected = Except.ok arm) :
    ((main env).trace.filterMap clipName?
        = SELECTED_ANIMATIONS.filter (fun n => decide (n ∈ env.dirContents))) ∧
    (selectFbxFiles SELECTED_ANIMATIONS env.dirContents
        = SELECTED_ANIMATIONS.filter (fun n => decide (n ∈ env.dirContents))) ∧
    (∀ dir : List String, selectFbxFiles [] dir
        = dir.filter (fun n => n.endsWith ".fbx")) ∧
    Event.exportAsset (OUTPUT_PATH env.root) ∈ (main env).trace ∧
    OUTPUT_PATH env.root = env.root ++ "/assets/sample_avatar_animated.glb" := by
  have hsel : selectFbxFiles SELECTED_ANIMATIONS env.dirContents
      = SELECTED_ANIMATIONS.filter (fun n => decide (n ∈ env.dirContents)) := by
    unfold selectFbxFiles
    rw [if_pos (by simp [SELECTED_ANIMATIONS])]
  refine ⟨?_, hsel, ?_, ?_, rfl⟩
  · rw [main_trace_shape env arm h]
    simp [List.filterMap_append, clipName?, hsel]
    exact filterMap_clipName_comp _
  · intro dir
    simp [selectFbxFiles]
  · rw [main_trace_shape env arm h]
    simp

/-- Witness for C6: with directory listing ["Talking.fbx"], exactly that
selected clip is processed. -/
theorem C6_clip_selection_witness :
    import_glb_avatar env1.baseSelected = Except.ok tgtObj ∧
    (main env1).trace.filterMap clipName? = ["Talking.fbx"] := by
  refine ⟨rfl, ?_⟩
  have h := (C6_clip_selection env1 tgtObj rfl).1
  simpa using h

/-- Claim C7: each selected clip file is handed to the transfer exactly
once per invocation, in order; a failed clip is not retried and only
lowers the transferred count, which never exceeds the number of files. -/
theorem C7_no_retry (env : Env) (arm : Obj)
    (h : import_glb_avatar env.baseSelected = Except.ok arm) :
    ((main env).trace.filterMap clipName?
        = selectFbxFiles SELECTED_ANIMATIONS env.dirContents) ∧
    (∀ f, (main env).trace.count (Event.importClip f)
        = (selectFbxFiles SELECTED_ANIMATIONS env.dirContents).count f) ∧
    (main env).imported_count
        ≤ (selectFbxFiles SELECTED_ANIMATIONS env.dirContents).length := by
  have htr := main_trace_shape env arm h
  refine ⟨?_, ?_, ?_⟩
  · rw [htr]
    simp [List.filterMap_append, clipName?]
    exact filterMap_clipName_comp _
  · intro f
    rw [htr]
    simp [List.count_append, List.count_cons, count_map_importClip]
  · have hle := processClips_count_le env
      (selectFbxFiles SELECTED_ANIMATIONS env.dirContents) arm
    simpa only [main, h] using hle

/-- Witness for C7: in the one-clip environment the clip event occurs
exactly once and the transferred count is at most one. -/
theorem C7_no_retry_witness :
    import_glb_avatar env1.baseSelected = Except.ok tgtObj ∧
    (main env1).trace.count (Event.importClip "Talking.fbx") = 1 ∧
    (main env1).imported_count ≤ 1 := by
  refine ⟨rfl, ?_, ?_⟩
  · have h := (C7_no_retry env1 tgtObj rfl).2.1 "Talking.fbx"
    simpa using h
  · have h := (C7_no_retry env1 tgtObj rfl).2.2
    simpa using h

end MergeAvatar
